import Mathlib

/-!
Shallow embedding of the document-issuance pipeline of the `facturando`
repository (Peruvian e-invoicing service), together with theorems settling
the specification claims about it.

Monetary amounts are modelled as rationals (`ℚ`); Python `Decimal` values
with `quantize(Decimal("0.01"), rounding=ROUND_HALF_UP)` are modelled by
`roundHalfUp2` (round to 2 decimal places, ties away from zero, which is
what `ROUND_HALF_UP` does).  XML element trees (`lxml.etree`) are modelled
by the nested inductive `XNode`; element attributes are not carried since
no claim depends on them.
-/

namespace Facturando

/-- `ROUND_HALF_UP` quantization to 2 decimal places: round to the nearest
multiple of 1/100, ties away from zero (Python `Decimal.quantize` with
`ROUND_HALF_UP`). -/
def roundHalfUp2 (x : ℚ) : ℚ :=
  if 0 ≤ x then (⌊x * 100 + 1 / 2⌋ : ℚ) / 100
  else -((⌊-x * 100 + 1 / 2⌋ : ℚ) / 100)

/-- `_d(value)` from `src/services/xml_generator.py`: convert to `Decimal`
and quantize to 2 decimals, half-up.  (The Python `value or 0` guard maps
`0` to `0`, a numeric no-op.) -/
def d2 (value : ℚ) : ℚ := roundHalfUp2 value

/-- `str(getattr(item, "tipo_afectacion_igv", "10") or "10")`: a falsy
(empty) tax-affectation code defaults to `"10"`. -/
def tipoNorm (s : String) : String := if s = "" then "10" else s

/-- One invoice line item as consumed by `_calcular_totales` and
`_build_invoice_line` (fields of the `ItemXML` objects built in
`src/tasks/tasks.py` / `src/tasks/envio_sunat.py`). -/
structure Item where
  descripcion : String
  cantidad : ℚ
  precio_unitario : ℚ
  tipo_afectacion_igv : String
  unidad : String
deriving DecidableEq, Repr

/-- Result of `_calcular_totales` (`src/services/xml_generator.py`,
lines 477-526). -/
structure Totales where
  gravado : ℚ
  exonerado : ℚ
  inafecto : ℚ
  exportacion : ℚ
  igv_total : ℚ
  subtotal : ℚ
  total : ℚ
deriving DecidableEq, Repr

/-- Running sums of the `for item in items` loop of `_calcular_totales`. -/
structure CalcAcc where
  gravado : ℚ
  exonerado : ℚ
  inafecto : ℚ
  exportacion : ℚ
  igv_total : ℚ
deriving DecidableEq, Repr

/-- Loop body of `_calcular_totales`: bucket the quantized line amount by
tax-affectation code; for code `"10"` also accumulate the per-line rounded
IGV (18%). -/
def calcStep (acc : CalcAcc) (item : Item) : CalcAcc :=
  let cantidad := d2 item.cantidad
  let precio := d2 item.precio_unitario
  let tipo_igv := tipoNorm item.tipo_afectacion_igv
  let monto_linea := roundHalfUp2 (cantidad * precio)
  if tipo_igv = "10" then
    { acc with
      gravado := acc.gravado + monto_linea
      igv_total := acc.igv_total + roundHalfUp2 (monto_linea * (18 / 100)) }
  else if tipo_igv = "20" then { acc with exonerado := acc.exonerado + monto_linea }
  else if tipo_igv = "30" then { acc with inafecto := acc.inafecto + monto_linea }
  else if tipo_igv = "40" then { acc with exportacion := acc.exportacion + monto_linea }
  else acc

/-- `_calcular_totales(items)` from `src/services/xml_generator.py`. -/
def calcularTotales (items : List Item) : Totales :=
  let a := items.foldl calcStep ⟨0, 0, 0, 0, 0⟩
  let subtotal := a.gravado + a.exonerado + a.inafecto + a.exportacion
  { gravado := a.gravado, exonerado := a.exonerado, inafecto := a.inafecto,
    exportacion := a.exportacion, igv_total := a.igv_total,
    subtotal := subtotal, total := subtotal + a.igv_total }

/-- Line amount as computed by the code: quantize quantity and unit price
to 2 decimals first, then round the product. -/
def montoLinea (item : Item) : ℚ :=
  roundHalfUp2 (d2 item.cantidad * d2 item.precio_unitario)

/-- Per-line IGV as computed by the code: 18% of the line amount, rounded
per line; zero for any code other than `"10"`. -/
def igvLinea (item : Item) : ℚ :=
  if tipoNorm item.tipo_afectacion_igv = "10" then
    roundHalfUp2 (montoLinea item * (18 / 100))
  else 0

/-- Sum of the code-computed line amounts of the items whose normalized
tax-affectation code is `code`. -/
def bucketSum (code : String) (items : List Item) : ℚ :=
  ((items.filter (fun it => tipoNorm it.tipo_afectacion_igv = code)).map montoLinea).sum

/-- Modelled from the spec (claim C1 reference definition): each line
amount is `round(quantity × unit price, 2, half-up)` (no prior
quantization of the factors), buckets are sums by literal code, and the
document tax amount is `round(taxed-sum × 0.18, 2, half-up)`. -/
def specMontoLinea (item : Item) : ℚ :=
  roundHalfUp2 (item.cantidad * item.precio_unitario)

/-- Modelled from the spec (claim C1 reference definition), bucket sums. -/
def specBucketSum (code : String) (items : List Item) : ℚ :=
  ((items.filter (fun it => it.tipo_afectacion_igv = code)).map specMontoLinea).sum

/-- Modelled from the spec (claim C1 reference definition): the seven
outputs of the tax computation as the spec sentence describes them. -/
def specTotales (items : List Item) : Totales :=
  let gravado := specBucketSum "10" items
  let exonerado := specBucketSum "20" items
  let inafecto := specBucketSum "30" items
  let exportacion := specBucketSum "40" items
  let igv := roundHalfUp2 (gravado * (18 / 100))
  let subtotal := gravado + exonerado + inafecto + exportacion
  { gravado := gravado, exonerado := exonerado, inafecto := inafecto,
    exportacion := exportacion, igv_total := igv,
    subtotal := subtotal, total := subtotal + igv }

theorem bucketSum_nil (code : String) : bucketSum code [] = 0 := by
  simp [bucketSum]

theorem bucketSum_cons (code : String) (it : Item) (rest : List Item) :
    bucketSum code (it :: rest) =
      (if tipoNorm it.tipo_afectacion_igv = code then montoLinea it else 0) +
        bucketSum code rest := by
  by_cases h : tipoNorm it.tipo_afectacion_igv = code
  · simp [bucketSum, List.filter_cons, h]
  · simp [bucketSum, List.filter_cons, h]

theorem calcStep_eq (acc : CalcAcc) (it : Item) :
    calcStep acc it =
      { gravado := acc.gravado +
          (if tipoNorm it.tipo_afectacion_igv = "10" then montoLinea it else 0)
        exonerado := acc.exonerado +
          (if tipoNorm it.tipo_afectacion_igv = "20" then montoLinea it else 0)
        inafecto := acc.inafecto +
          (if tipoNorm it.tipo_afectacion_igv = "30" then montoLinea it else 0)
        exportacion := acc.exportacion +
          (if tipoNorm it.tipo_afectacion_igv = "40" then montoLinea it else 0)
        igv_total := acc.igv_total + igvLinea it } := by
  by_cases h10 : tipoNorm it.tipo_afectacion_igv = "10"
  · simp [calcStep, montoLinea, igvLinea, d2, h10]
  · by_cases h20 : tipoNorm it.tipo_afectacion_igv = "20"
    · simp [calcStep, montoLinea, igvLinea, d2, h10, h20]
    · by_cases h30 : tipoNorm it.tipo_afectacion_igv = "30"
      · simp [calcStep, montoLinea, igvLinea, d2, h10, h20, h30]
      · by_cases h40 : tipoNorm it.tipo_afectacion_igv = "40"
        · simp [calcStep, montoLinea, igvLinea, d2, h10, h20, h30, h40]
        · simp [calcStep, montoLinea, igvLinea, d2, h10, h20, h30, h40]

/-- Accumulator characterization of the `_calcular_totales` loop. -/
theorem foldl_calcStep (items : List Item) (acc : CalcAcc) :
    items.foldl calcStep acc =
      { gravado := acc.gravado + bucketSum "10" items
        exonerado := acc.exonerado + bucketSum "20" items
        inafecto := acc.inafecto + bucketSum "30" items
        exportacion := acc.exportacion + bucketSum "40" items
        igv_total := acc.igv_total + (items.map igvLinea).sum } := by
  induction items generalizing acc with
  | nil => simp [bucketSum_nil]
  | cons it rest ih =>
    rw [List.foldl_cons, calcStep_eq, ih]
    simp only [bucketSum_cons, List.map_cons, List.sum_cons, CalcAcc.mk.injEq]
    refine ⟨by ring, by ring, by ring, by ring, by ring⟩

/-- C1 (amended): for every list of line items, `_calcular_totales` buckets
the line amounts (`round(round(quantity,2) × round(unit price,2), 2,
half-up)`) by normalized tax-category code into the four sums gravado/
exonerado/inafecto/exportacion; the document tax amount is the SUM OF THE
PER-LINE rounded IGV amounts `round(line amount × 0.18, 2, half-up)` of
the taxed lines (not the rounding of 18% of the taxed sum); the subtotal
is the sum of the four buckets; the grand total is subtotal + tax; and for
the empty list all seven outputs are zero. -/
theorem calcularTotales_bucketed (items : List Item) :
    calcularTotales items =
      { gravado := bucketSum "10" items
        exonerado := bucketSum "20" items
        inafecto := bucketSum "30" items
        exportacion := bucketSum "40" items
        igv_total := (items.map igvLinea).sum
        subtotal := bucketSum "10" items + bucketSum "20" items +
          bucketSum "30" items + bucketSum "40" items
        total := bucketSum "10" items + bucketSum "20" items +
          bucketSum "30" items + bucketSum "40" items + (items.map igvLinea).sum } ∧
    calcularTotales [] = ⟨0, 0, 0, 0, 0, 0, 0⟩ := by
  constructor
  · rw [calcularTotales, foldl_calcStep]
    simp
  · simp [calcularTotales]

/-- First counterexample item for C1: two copies of a 0.03 taxed line make
the per-line-rounded IGV diverge from the document-level rounding. -/
def c1ItemA : Item := ⟨"A", 1, 3 / 100, "10", "NIU"⟩

/-- Second counterexample item for C1: quantity and price 1.004 are
quantized to 1.00 before multiplying, while the spec formula rounds the
exact product 1.008016 to 1.01. -/
def c1ItemB : Item := ⟨"B", 1004 / 1000, 1004 / 1000, "20", "NIU"⟩

/-- C1 counterexample: on two taxed lines of amount 0.03 the code computes
IGV 0.01 + 0.01 = 0.02 while the spec formula `round(taxed-sum × 0.18)`
gives `round(0.0108) = 0.01`; and on a single line with quantity = unit
price = 1.004 the code buckets 1.00 while the spec formula
`round(quantity × price)` gives 1.01.  So `_calcular_totales` is not the
claim's reference definition. -/
theorem c1_counterexample :
    (calcularTotales [c1ItemA, c1ItemA]).igv_total = 2 / 100 ∧
    (specTotales [c1ItemA, c1ItemA]).igv_total = 1 / 100 ∧
    calcularTotales [c1ItemA, c1ItemA] ≠ specTotales [c1ItemA, c1ItemA] ∧
    (calcularTotales [c1ItemB]).exonerado = 1 ∧
    (specTotales [c1ItemB]).exonerado = 101 / 100 ∧
    calcularTotales [c1ItemB] ≠ specTotales [c1ItemB] := by
  have hA1 : (calcularTotales [c1ItemA, c1ItemA]).igv_total = 2 / 100 := by
    simp [calcularTotales, calcStep, c1ItemA, tipoNorm, d2]
    norm_num [roundHalfUp2]
  have hA2 : (specTotales [c1ItemA, c1ItemA]).igv_total = 1 / 100 := by
    simp [specTotales, specBucketSum, specMontoLinea, c1ItemA]
    norm_num [roundHalfUp2]
  have hB1 : (calcularTotales [c1ItemB]).exonerado = 1 := by
    simp [calcularTotales, calcStep, c1ItemB, tipoNorm, d2]
    norm_num [roundHalfUp2]
  have hB2 : (specTotales [c1ItemB]).exonerado = 101 / 100 := by
    simp [specTotales, specBucketSum, specMontoLinea, c1ItemB]
    norm_num [roundHalfUp2]
  refine ⟨hA1, hA2, ?_, hB1, hB2, ?_⟩
  · intro h
    have h2 := congrArg Totales.igv_total h
    rw [hA1, hA2] at h2
    norm_num at h2
  · intro h
    have h2 := congrArg Totales.exonerado h
    rw [hB1, hB2] at h2
    norm_num at h2

/-! ## XML element trees

`lxml.etree` element trees are modelled by `XNode`.  Tags carry their
namespace prefix (`cbc:`, `cac:`, `ext:`, `ds:`); attributes are omitted
(no claim depends on them). -/

inductive XNode where
  | el (tag : String) (text : Option String) (children : List XNode)
deriving Repr

def tagOf : XNode → String
  | .el t _ _ => t

def textOf : XNode → Option String
  | .el _ x _ => x

def childrenOf : XNode → List XNode
  | .el _ _ cs => cs

/-- `parent.append(child)` on an element. -/
def appendChild : XNode → XNode → XNode
  | .el t x cs, s => .el t x (cs ++ [s])

mutual

/-- Number of elements with the given tag in the subtree rooted at the
node, the node itself included. -/
def cntTag (tag : String) : XNode → Nat
  | .el t _ cs => (if t == tag then 1 else 0) + cntTagL tag cs

/-- Number of elements with the given tag in a forest. -/
def cntTagL (tag : String) : List XNode → Nat
  | [] => 0
  | c :: cs => cntTag tag c + cntTagL tag cs

end

mutual

/-- `node.find(".//{ns}tag")`: first descendant with the given tag in
document (pre-)order, the node itself excluded. -/
def findTag (tag : String) : XNode → Option XNode
  | .el _ _ cs => findTagL tag cs

def findTagL (tag : String) : List XNode → Option XNode
  | [] => none
  | c :: cs =>
    if tagOf c == tag then some c
    else match findTag tag c with
      | some r => some r
      | none => findTagL tag cs

end

mutual

/-- Remove the first descendant with the given tag (document order) from
its parent: the functional rendering of `parent.remove(elem)` after
`elem = node.find(".//tag")`. -/
def remFirstTag (tag : String) : XNode → XNode
  | .el t x cs => .el t x (remFirstTagL tag cs)

def remFirstTagL (tag : String) : List XNode → List XNode
  | [] => []
  | c :: cs =>
    if tagOf c == tag then cs
    else if cntTag tag c ≠ 0 then remFirstTag tag c :: cs
    else c :: remFirstTagL tag cs

end

mutual

/-- Append `s` as last child of the first descendant with tag `tag`
(document order): the functional rendering of `container.append(elem)`
after `container = node.find(".//tag")`. -/
def appIntoFirstTag (tag : String) (s : XNode) : XNode → XNode
  | .el t x cs => .el t x (appIntoFirstTagL tag s cs)

def appIntoFirstTagL (tag : String) (s : XNode) : List XNode → List XNode
  | [] => []
  | c :: cs =>
    if tagOf c == tag then appendChild c s :: cs
    else if cntTag tag c ≠ 0 then appIntoFirstTag tag s c :: cs
    else c :: appIntoFirstTagL tag s cs

end

mutual

/-- Whether some element with tag `tagP` (descendant or self) has a direct
child with tag `tagC`. -/
def tagHasChildTag (tagP tagC : String) : XNode → Bool
  | .el t _ cs =>
    (t == tagP && cs.any (fun c => tagOf c == tagC)) || tagHasChildTagL tagP tagC cs

def tagHasChildTagL (tagP tagC : String) : List XNode → Bool
  | [] => false
  | c :: cs => tagHasChildTag tagP tagC c || tagHasChildTagL tagP tagC cs

end

mutual

/-- Whether some element in the subtree (self included) has the given tag
and exactly the given text. -/
def hasElemText (tag : String) (txt : Option String) : XNode → Bool
  | .el t x cs => (t == tag && x == txt) || hasElemTextL tag txt cs

def hasElemTextL (tag : String) (txt : Option String) : List XNode → Bool
  | [] => false
  | c :: cs => hasElemText tag txt c || hasElemTextL tag txt cs

end

/-! ## Document Model Builder (`src/services/xml_generator.py`) -/

/-- `_cbc(tag, text)`: a `cbc:` leaf element with text (the builders below
always pass a text argument, possibly the empty string — `_cbc` sets
`el.text = str(text)` for any non-`None` argument, so an empty string
still becomes text content). -/
def cbcE (tag : String) (text : String) : XNode :=
  .el ("cbc:" ++ tag) (some text) []

/-- `_cac(tag)` followed by the `append` calls of the builder. -/
def cacE (tag : String) (children : List XNode) : XNode :=
  .el ("cac:" ++ tag) none children

/-- Python `a or b` on strings: `b` when `a` is empty. -/
def strOr (a b : String) : String := if a = "" then b else a

/-- Fixed-point rendering `f"{value:.2f}"` for values that are already
quantized to 2 decimals. -/
def fmt2 (q : ℚ) : String :=
  let n : ℤ := ⌊q * 100⌋
  let a := n.natAbs
  (if n < 0 then "-" else "") ++ toString (a / 100) ++ "." ++
    (if a % 100 < 10 then "0" else "") ++ toString (a % 100)

/-- `_amount(tag, value)`: `_cbc(tag, f"{_d(value):.2f}")` (the
`currencyID` attribute is not modelled). -/
def amountE (tag : String) (value : ℚ) : XNode :=
  cbcE tag (fmt2 (d2 value))

/-- The `emisor` dict built by `_build_emisor_dict` (`src/tasks/tasks.py`,
`src/tasks/envio_sunat.py`): every key present, blanks already defaulted
to the empty string. -/
structure EmisorDict where
  ruc : String
  razon_social : String
  nombre_comercial : String
  direccion : String
  ubigeo : String
  departamento : String
  provincia : String
  distrito : String
deriving Repr

/-- The comprobante object consumed by the builder; the `getattr` fallback
chains of `_build_customer` are modelled as already-resolved fields, and
issue date/time reach the builder as already-formatted strings. -/
structure ComprobanteDoc where
  tipo_documento : String
  serie : String
  numero : Nat
  fecha_emision : String
  hora_emision : String
  moneda : String
  cliente_tipo_doc : String
  cliente_num_doc : String
  cliente_nombre : String
  cliente_direccion : String
  items : List Item
deriving Repr

/-- `_build_supplier(emisor)`: the address block is emitted
unconditionally, each sub-element taking whatever string the emisor dict
holds (possibly empty). -/
def buildSupplier (e : EmisorDict) : XNode :=
  cacE "AccountingSupplierParty"
    [cacE "Party"
      [cacE "PartyIdentification" [cbcE "ID" e.ruc],
       cacE "PartyName" [cbcE "Name" (strOr e.nombre_comercial e.razon_social)],
       cacE "PartyLegalEntity"
         [cbcE "RegistrationName" e.razon_social,
          cacE "RegistrationAddress"
            [cbcE "ID" e.ubigeo,
             cbcE "AddressTypeCode" "0000",
             cbcE "CitySubdivisionName" "-",
             cbcE "CityName" e.provincia,
             cbcE "CountrySubentity" e.departamento,
             cbcE "District" e.distrito,
             cacE "AddressLine" [cbcE "Line" e.direccion],
             cacE "Country" [cbcE "IdentificationCode" "PE"]]]]]

/-- `_build_customer(comprobante)`: the `RegistrationAddress` block is
emitted only when the customer address is non-empty (Python truthiness of
`cliente_direccion`). -/
def buildCustomer (c : ComprobanteDoc) : XNode :=
  cacE "AccountingCustomerParty"
    [cacE "Party"
      [cacE "PartyIdentification" [cbcE "ID" c.cliente_num_doc],
       cacE "PartyLegalEntity"
         ([cbcE "RegistrationName" c.cliente_nombre] ++
          (if c.cliente_direccion ≠ "" then
            [cacE "RegistrationAddress"
              [cacE "AddressLine" [cbcE "Line" c.cliente_direccion]]]
           else []))]]

/-- `TIPO_IGV.get(tipo, TIPO_IGV["10"])` combined with
`TRIBUTOS.get(..)`: tribute id, name and type code for a tax-affectation
code. -/
def tributoDe (tipo : String) : String × String × String :=
  if tipo = "10" then ("1000", "IGV", "VAT")
  else if tipo = "20" then ("9997", "EXO", "VAT")
  else if tipo = "30" then ("9998", "INA", "FRE")
  else if tipo = "40" then ("9995", "EXP", "FRE")
  else ("1000", "IGV", "VAT")

/-- `_build_tax_subtotal(base, tax_amount, tributo_id, nombre, code)`. -/
def buildTaxSubtotal (base tax : ℚ) (tid tname tcode : String) : XNode :=
  cacE "TaxSubtotal"
    [amountE "TaxableAmount" base,
     amountE "TaxAmount" tax,
     cacE "TaxCategory"
       [cbcE "ID" tid,
        cbcE "Percent" (if tid = "1000" then "18.00" else "0.00"),
        cacE "TaxScheme" [cbcE "ID" tid, cbcE "Name" tname, cbcE "TaxTypeCode" tcode]]]

/-- `_build_tax_total(totales)`: one `TaxSubtotal` per strictly positive
bucket. -/
def buildTaxTotal (t : Totales) : XNode :=
  cacE "TaxTotal"
    ([amountE "TaxAmount" t.igv_total] ++
     (if 0 < t.gravado then [buildTaxSubtotal t.gravado t.igv_total "1000" "IGV" "VAT"] else []) ++
     (if 0 < t.exonerado then [buildTaxSubtotal t.exonerado 0 "9997" "EXO" "VAT"] else []) ++
     (if 0 < t.inafecto then [buildTaxSubtotal t.inafecto 0 "9998" "INA" "FRE"] else []) ++
     (if 0 < t.exportacion then [buildTaxSubtotal t.exportacion 0 "9995" "EXP" "FRE"] else []))

/-- `_build_monetary_total(totales, tag)`. -/
def buildMonetaryTotal (t : Totales) (tag : String) : XNode :=
  cacE tag
    [amountE "LineExtensionAmount" t.subtotal,
     amountE "TaxInclusiveAmount" t.total,
     amountE "PayableAmount" t.total]

/-- `_build_invoice_line(idx, item, ...)`: one line entry per item,
whatever its tax-affectation code. -/
def buildInvoiceLine (idx : Nat) (item : Item) (line_tag qty_tag : String) : XNode :=
  let cantidad := d2 item.cantidad
  let precio := d2 item.precio_unitario
  let tipo_igv := tipoNorm item.tipo_afectacion_igv
  let monto_linea := roundHalfUp2 (cantidad * precio)
  let igv_item := if tipo_igv = "10" then roundHalfUp2 (monto_linea * (18 / 100)) else 0
  let precio_con_igv :=
    if tipo_igv = "10" then precio + roundHalfUp2 (precio * (18 / 100)) else precio
  let trib := tributoDe tipo_igv
  cacE line_tag
    [cbcE "ID" (toString idx),
     cbcE qty_tag (fmt2 cantidad),
     amountE "LineExtensionAmount" monto_linea,
     cacE "PricingReference"
       [cacE "AlternativeConditionPrice"
         [amountE "PriceAmount" precio_con_igv, cbcE "PriceTypeCode" "01"]],
     cacE "TaxTotal"
       [amountE "TaxAmount" igv_item,
        cacE "TaxSubtotal"
          [amountE "TaxableAmount" monto_linea,
           amountE "TaxAmount" igv_item,
           cacE "TaxCategory"
             [cbcE "ID" tipo_igv,
              cbcE "Percent" (if tipo_igv = "10" then "18.00" else "0.00"),
              cbcE "TaxExemptionReasonCode" tipo_igv,
              cacE "TaxScheme"
                [cbcE "ID" trib.1, cbcE "Name" trib.2.1, cbcE "TaxTypeCode" trib.2.2]]]],
     cacE "Item" [cbcE "Description" item.descripcion],
     cacE "Price" [amountE "PriceAmount" precio]]

/-- The `for idx, item in enumerate(items, start=1)` loop of the builders:
one line element per input item. -/
def buildLines (items : List Item) (line_tag qty_tag : String) : List XNode :=
  items.enum.map (fun p => buildInvoiceLine (p.1 + 1) p.2 line_tag qty_tag)

/-- The empty signature placeholder
`UBLExtensions/UBLExtension/ExtensionContent`. -/
def extPathNode : XNode :=
  .el "ext:UBLExtensions" none
    [.el "ext:UBLExtension" none [.el "ext:ExtensionContent" none []]]

/-- The `cac:Signature` reference block of the header. -/
def buildSignatureBlock (e : EmisorDict) : XNode :=
  cacE "Signature"
    [cbcE "ID" e.ruc,
     cacE "SignatoryParty"
       [cacE "PartyIdentification" [cbcE "ID" e.ruc],
        cacE "PartyName" [cbcE "Name" e.razon_social]],
     cacE "DigitalSignatureAttachment"
       [cacE "ExternalReference" [cbcE "URI" ("#" ++ e.ruc ++ "-SIGN")]]]

/-- `_build_factura_boleta_xml` element tree (before serialization). -/
def buildFacturaBoletaTree (c : ComprobanteDoc) (e : EmisorDict) : XNode :=
  .el "Invoice" none
    ([extPathNode,
      cbcE "UBLVersionID" "2.1",
      cbcE "CustomizationID" "2.0",
      cbcE "ID" (c.serie ++ "-" ++ toString c.numero),
      cbcE "IssueDate" c.fecha_emision,
      cbcE "IssueTime" c.hora_emision,
      cbcE "InvoiceTypeCode" c.tipo_documento,
      cbcE "DocumentCurrencyCode" c.moneda,
      buildSignatureBlock e,
      buildSupplier e,
      buildCustomer c,
      buildTaxTotal (calcularTotales c.items),
      buildMonetaryTotal (calcularTotales c.items) "LegalMonetaryTotal"] ++
     buildLines c.items "InvoiceLine" "InvoicedQuantity")

/-! ## Serialization (`etree.tostring`) -/

def spaces : Nat → String
  | 0 => ""
  | n + 1 => " " ++ spaces n

def textStr : Option String → String
  | none => ""
  | some s => s

mutual

/-- Compact (canonical, whitespace-free) serialization of an element. -/
def serC : XNode → String
  | .el t txt cs => "<" ++ t ++ ">" ++ textStr txt ++ serCL cs ++ "</" ++ t ++ ">"

def serCL : List XNode → String
  | [] => ""
  | c :: cs => serC c ++ serCL cs

end

mutual

/-- Pretty-printed serialization (`pretty_print=True`): children of a
non-leaf element each on their own line, indented two further spaces. -/
def serP (ind : Nat) : XNode → String
  | .el t txt cs =>
    spaces ind ++ "<" ++ t ++ ">" ++
      (if cs.isEmpty then textStr txt ++ "</" ++ t ++ ">\n"
       else "\n" ++ serPL (ind + 2) cs ++ spaces ind ++ "</" ++ t ++ ">\n")

def serPL (ind : Nat) : List XNode → String
  | [] => ""
  | c :: cs => serP ind c ++ serPL ind cs

end

/-- The XML declaration emitted by
`etree.tostring(..., xml_declaration=True, encoding="UTF-8")`. -/
def xmlDecl : String := "<?xml version=\"1.0\" encoding=\"UTF-8\"?>\n"

/-- `etree.tostring(node, xml_declaration=True, encoding="UTF-8",
pretty_print=...)`. -/
def etreeTostring (pretty_print : Bool) (t : XNode) : String :=
  xmlDecl ++ (if pretty_print then serP 0 t else serC t)

/-- `_build_factura_boleta_xml` output bytes: the source serializes with
`pretty_print=True` (`src/services/xml_generator.py`, line 223). -/
def buildFacturaBoletaBytes (c : ComprobanteDoc) (e : EmisorDict) : String :=
  etreeTostring true (buildFacturaBoletaTree c e)

/-! ## Digital Signature Engine (`src/services/firma_digital.py`)

`firmar_xml` parses the input, ensures an `ext:ExtensionContent`
placeholder exists, lets `signxml` produce an enveloped signature —
`signxml` appends the `ds:Signature` element as the last child of the
document root — then relocates that signature into the first
`ext:ExtensionContent` found in document order.  The element-identity
operations `parent.remove(sig_elem)` followed by
`ext_content.append(sig_elem)` are rendered functionally as
remove-first-signature followed by append-into-first-placeholder, which
coincides with the source whenever the signature contains no placeholder
of its own. -/

def sigTag : String := "ds:Signature"

def extTag : String := "ext:ExtensionContent"

/-- `signer.sign(doc, ...)` with `SignatureConstructionMethod.enveloped`:
`signxml` appends the produced `ds:Signature` element as the last child of
the root.  The signature element itself is an opaque parameter. -/
def signxmlSign (sig doc : XNode) : XNode := appendChild doc sig

/-- `firmar_xml` at tree level (parsing and key extraction aside): ensure
the placeholder, sign, then move the signature into the placeholder when
both are found. -/
def firmarXmlTree (sig doc : XNode) : XNode :=
  let doc1 :=
    if cntTagL extTag (childrenOf doc) ≠ 0 then doc else appendChild doc extPathNode
  let signed := signxmlSign sig doc1
  match findTag sigTag signed with
  | none => signed
  | some s =>
    if cntTagL extTag (childrenOf signed) ≠ 0 then
      appIntoFirstTag extTag s (remFirstTag sigTag signed)
    else signed

/-- `firmar_xml` output bytes: the source serializes the signed tree with
`pretty_print=True` (`src/services/firma_digital.py`, line 113). -/
def firmarXmlBytes (sig doc : XNode) : String :=
  etreeTostring true (firmarXmlTree sig doc)

/-! ### Tree lemmas for the signature-relocation proof -/

theorem cntTag_eq (tag : String) (n : XNode) :
    cntTag tag n = (if tagOf n == tag then 1 else 0) + cntTagL tag (childrenOf n) := by
  cases n
  rfl

theorem cntTagL_append (tag : String) (cs ds : List XNode) :
    cntTagL tag (cs ++ ds) = cntTagL tag cs + cntTagL tag ds := by
  induction cs with
  | nil => simp [cntTagL]
  | cons c cs ih => simp [cntTagL, ih, Nat.add_assoc]

theorem cntTag_appendChild (tag : String) (c s : XNode) :
    cntTag tag (appendChild c s) = cntTag tag c + cntTag tag s := by
  cases c with
  | el t x cs =>
    simp [appendChild, cntTag, cntTagL_append, cntTagL, Nat.add_assoc]

theorem tag_ne_of_cnt_zero (tag : String) (c : XNode) (hc : cntTag tag c = 0) :
    (tagOf c == tag) = false := by
  cases hbe : (tagOf c == tag)
  · rfl
  · exfalso
    rw [cntTag_eq, hbe] at hc
    simp at hc

theorem childCnt_of_cnt_zero (tag : String) (c : XNode) (hc : cntTag tag c = 0) :
    cntTagL tag (childrenOf c) = 0 := by
  have ht := tag_ne_of_cnt_zero tag c hc
  rw [cntTag_eq, ht] at hc
  simpa using hc

theorem childCnt_nonzero (tag : String) (c : XNode)
    (ht : (tagOf c == tag) = false) (hc : cntTag tag c ≠ 0) :
    cntTagL tag (childrenOf c) ≠ 0 := by
  rw [cntTag_eq, ht] at hc
  simpa using hc

mutual

theorem findTag_eq_none (tag : String) :
    (n : XNode) → cntTagL tag (childrenOf n) = 0 → findTag tag n = none
  | .el t x cs, h => by
    simp only [childrenOf] at h
    simpa [findTag] using findTagL_eq_none tag cs h

theorem findTagL_eq_none (tag : String) :
    (cs : List XNode) → cntTagL tag cs = 0 → findTagL tag cs = none
  | [], _ => rfl
  | c :: cs, h => by
    rw [cntTagL] at h
    have hc : cntTag tag c = 0 := by omega
    have hcs : cntTagL tag cs = 0 := by omega
    rw [findTagL]
    simp [tag_ne_of_cnt_zero tag c hc,
      findTag_eq_none tag c (childCnt_of_cnt_zero tag c hc),
      findTagL_eq_none tag cs hcs]

end

theorem findTagL_append_self (tag : String) (s : XNode) :
    (cs : List XNode) → cntTagL tag cs = 0 → (tagOf s == tag) = true →
      findTagL tag (cs ++ [s]) = some s
  | [], _, hs => by simp [findTagL, hs]
  | c :: cs, h, hs => by
    rw [cntTagL] at h
    have hc : cntTag tag c = 0 := by omega
    have hcs : cntTagL tag cs = 0 := by omega
    rw [List.cons_append, findTagL]
    simp [tag_ne_of_cnt_zero tag c hc,
      findTag_eq_none tag c (childCnt_of_cnt_zero tag c hc),
      findTagL_append_self tag s cs hcs hs]

theorem remFirstTagL_append_self (tag : String) (s : XNode) :
    (cs : List XNode) → cntTagL tag cs = 0 → (tagOf s == tag) = true →
      remFirstTagL tag (cs ++ [s]) = cs
  | [], _, hs => by simp [remFirstTagL, hs]
  | c :: cs, h, hs => by
    rw [cntTagL] at h
    have hc : cntTag tag c = 0 := by omega
    have hcs : cntTagL tag cs = 0 := by omega
    rw [List.cons_append, remFirstTagL]
    simp [tag_ne_of_cnt_zero tag c hc, hc,
      remFirstTagL_append_self tag s cs hcs hs]

mutual

theorem cntTag_appInto (tagI tagC : String) (s : XNode) :
    (n : XNode) → cntTagL tagI (childrenOf n) ≠ 0 →
      cntTag tagC (appIntoFirstTag tagI s n) = cntTag tagC n + cntTag tagC s
  | .el t x cs, h => by
    simp only [childrenOf] at h
    simp only [appIntoFirstTag, cntTag, cntTag_appIntoL tagI tagC s cs h]
    omega

theorem cntTag_appIntoL (tagI tagC : String) (s : XNode) :
    (cs : List XNode) → cntTagL tagI cs ≠ 0 →
      cntTagL tagC (appIntoFirstTagL tagI s cs) = cntTagL tagC cs + cntTag tagC s
  | [], h => by simp [cntTagL] at h
  | c :: cs, h => by
    by_cases ht : (tagOf c == tagI) = true
    · rw [appIntoFirstTagL, if_pos ht, cntTagL, cntTag_appendChild, cntTagL]
      omega
    · rw [Bool.not_eq_true] at ht
      by_cases hcnt : cntTag tagI c = 0
      · have hcs : cntTagL tagI cs ≠ 0 := by
          rw [cntTagL] at h
          omega
        rw [appIntoFirstTagL]
        simp only [ht, Bool.false_eq_true, if_false, hcnt, ne_eq,
          not_true_eq_false, cntTagL, cntTag_appIntoL tagI tagC s cs hcs]
        omega
      · have hch := childCnt_nonzero tagI c ht hcnt
        rw [appIntoFirstTagL]
        simp only [ht, Bool.false_eq_true, if_false, hcnt, ne_eq,
          not_false_eq_true, if_true, cntTagL, cntTag_appInto tagI tagC s c hch]
        omega

end

mutual

theorem hasChild_appInto (tagI tagC : String) (s : XNode) :
    (n : XNode) → cntTagL tagI (childrenOf n) ≠ 0 → (tagOf s == tagC) = true →
      tagHasChildTag tagI tagC (appIntoFirstTag tagI s n) = true
  | .el t x cs, h, hs => by
    simp only [childrenOf] at h
    simp only [appIntoFirstTag, tagHasChildTag,
      hasChild_appIntoL tagI tagC s cs h hs, Bool.or_true]

theorem hasChild_appIntoL (tagI tagC : String) (s : XNode) :
    (cs : List XNode) → cntTagL tagI cs ≠ 0 → (tagOf s == tagC) = true →
      tagHasChildTagL tagI tagC (appIntoFirstTagL tagI s cs) = true
  | [], h, _ => by simp [cntTagL] at h
  | c :: cs, h, hs => by
    by_cases ht : (tagOf c == tagI) = true
    · rw [appIntoFirstTagL, if_pos ht, tagHasChildTagL]
      cases c with
      | el t x ccs =>
        simp only [tagOf] at ht
        simp [appendChild, tagHasChildTag, ht, hs]
    · rw [Bool.not_eq_true] at ht
      by_cases hcnt : cntTag tagI c = 0
      · have hcs : cntTagL tagI cs ≠ 0 := by
          rw [cntTagL] at h
          omega
        rw [appIntoFirstTagL]
        simp only [ht, Bool.false_eq_true, if_false, hcnt, ne_eq,
          not_true_eq_false, tagHasChildTagL,
          hasChild_appIntoL tagI tagC s cs hcs hs, Bool.or_true]
      · have hch := childCnt_nonzero tagI c ht hcnt
        rw [appIntoFirstTagL]
        simp only [ht, Bool.false_eq_true, if_false, hcnt, ne_eq,
          not_false_eq_true, if_true, tagHasChildTagL,
          hasChild_appInto tagI tagC s c hch hs, Bool.true_or]

end

theorem tags_appIntoL (tagI : String) (s : XNode) (cs : List XNode) :
    (appIntoFirstTagL tagI s cs).map tagOf = cs.map tagOf := by
  induction cs with
  | nil => rfl
  | cons c cs ih =>
    by_cases ht : (tagOf c == tagI) = true
    · rw [appIntoFirstTagL, if_pos ht]
      cases c
      simp [appendChild, tagOf]
    · rw [Bool.not_eq_true] at ht
      by_cases hcnt : cntTag tagI c = 0
      · rw [appIntoFirstTagL]
        simp only [ht, Bool.false_eq_true, if_false, hcnt, ne_eq, not_true_eq_false,
          List.map_cons, ih]
      · rw [appIntoFirstTagL]
        simp only [ht, Bool.false_eq_true, if_false, hcnt, ne_eq, not_false_eq_true,
          if_true, List.map_cons]
        cases c
        simp [appIntoFirstTag, tagOf, ih]

theorem no_tag_of_cnt_zero (tag : String) (cs : List XNode)
    (h : cntTagL tag cs = 0) : ∀ c ∈ cs, tagOf c ≠ tag := by
  induction cs with
  | nil => simp
  | cons c cs ih =>
    rw [cntTagL] at h
    have hc : cntTag tag c = 0 := by omega
    intro d hd
    rcases List.mem_cons.mp hd with hd | hd
    · subst hd
      intro he
      have := tag_ne_of_cnt_zero tag d hc
      rw [he] at this
      simp at this
    · exact ih (by omega) d hd

theorem extPathNode_no_sig : cntTag sigTag extPathNode = 0 := by decide

theorem extPathNode_one_ext : cntTag extTag extPathNode = 1 := by decide

/-- Under the signing hypotheses, `firmar_xml` reduces to appending the
signature into the first placeholder of the (placeholder-ensured)
document. -/
theorem firmarXmlTree_eq (sig : XNode) (t : String) (x : Option String)
    (cs : List XNode)
    (hcs : cntTagL sigTag cs = 0)
    (hSigTag : (tagOf sig == sigTag) = true)
    (hSigNoExt : cntTag extTag sig = 0) :
    ∃ cs1 : List XNode,
      firmarXmlTree sig (.el t x cs) = appIntoFirstTag extTag sig (.el t x cs1) ∧
      cntTagL sigTag cs1 = 0 ∧ cntTagL extTag cs1 ≠ 0 := by
  by_cases hext : cntTagL extTag cs = 0
  · refine ⟨cs ++ [extPathNode], ?_, ?_, ?_⟩
    · rw [firmarXmlTree]
      simp only [childrenOf, hext, ne_eq, not_true_eq_false, if_false, signxmlSign,
        appendChild, findTag]
      have hcs1 : cntTagL sigTag (cs ++ [extPathNode]) = 0 := by
        rw [cntTagL_append]
        simp [cntTagL, extPathNode_no_sig, hcs]
      rw [findTagL_append_self sigTag sig _ hcs1 hSigTag]
      have hcond : cntTagL extTag ((cs ++ [extPathNode]) ++ [sig]) ≠ 0 := by
        rw [cntTagL_append, cntTagL_append]
        simp [cntTagL, extPathNode_one_ext, hSigNoExt]
      simp only [childrenOf, hcond, ne_eq, not_false_eq_true, if_true, remFirstTag,
        remFirstTagL_append_self sigTag sig _ hcs1 hSigTag]
    · rw [cntTagL_append]
      simp [cntTagL, extPathNode_no_sig, hcs]
    · rw [cntTagL_append]
      simp [cntTagL, extPathNode_one_ext]
  · refine ⟨cs, ?_, hcs, hext⟩
    rw [firmarXmlTree]
    simp only [childrenOf, hext, ne_eq, not_false_eq_true, if_true, signxmlSign,
      appendChild, findTag]
    rw [findTagL_append_self sigTag sig _ hcs hSigTag]
    have hcond : cntTagL extTag (cs ++ [sig]) ≠ 0 := by
      rw [cntTagL_append]
      simp [cntTagL, hSigNoExt]
      exact hext
    simp only [childrenOf, hcond, ne_eq, not_false_eq_true, if_true, remFirstTag,
      remFirstTagL_append_self sigTag sig _ hcs hSigTag]

/-- C3: for every well-formed unsigned document (no `ds:Signature`
anywhere in it) and every signature element produced by the signing
library (tagged `ds:Signature`, containing exactly one signature and no
placeholder), re-parsing the output of `firmar_xml` finds exactly one
`ds:Signature` element, that element sits inside an
`ext:ExtensionContent` placeholder, and no child of the document root is
a `ds:Signature`.  (Serialize-then-reparse is the identity on element
trees — whitespace apart — so the property is stated on the signed
tree.) -/
theorem firmar_xml_signature_in_placeholder (doc sig : XNode)
    (hUnsigned : cntTag sigTag doc = 0)
    (hSigTag : (tagOf sig == sigTag) = true)
    (hSigOnce : cntTag sigTag sig = 1)
    (hSigNoExt : cntTag extTag sig = 0) :
    cntTagL sigTag (childrenOf (firmarXmlTree sig doc)) = 1 ∧
    tagHasChildTag extTag sigTag (firmarXmlTree sig doc) = true ∧
    ∀ c ∈ childrenOf (firmarXmlTree sig doc), tagOf c ≠ sigTag := by
  cases doc with
  | el t x cs =>
    have hcs : cntTagL sigTag cs = 0 := by
      have := childCnt_of_cnt_zero sigTag (.el t x cs) hUnsigned
      simpa [childrenOf] using this
    obtain ⟨cs1, heq, h1, h2⟩ := firmarXmlTree_eq sig t x cs hcs hSigTag hSigNoExt
    rw [heq]
    refine ⟨?_, ?_, ?_⟩
    · simp only [appIntoFirstTag, childrenOf]
      rw [cntTag_appIntoL extTag sigTag sig cs1 h2]
      omega
    · exact hasChild_appInto extTag sigTag sig (.el t x cs1) (by simpa [childrenOf]) hSigTag
    · intro c hc
      simp only [appIntoFirstTag, childrenOf] at hc
      have hmem : tagOf c ∈ (appIntoFirstTagL extTag sig cs1).map tagOf :=
        List.mem_map_of_mem tagOf hc
      rw [tags_appIntoL] at hmem
      obtain ⟨d, hd, hde⟩ := List.mem_map.mp hmem
      rw [← hde]
      exact no_tag_of_cnt_zero sigTag cs1 h1 d hd

/-- Concrete unsigned document for the C3 witness. -/
def c3Doc : XNode :=
  .el "Invoice" none [extPathNode, cbcE "ID" "F001-1", cbcE "IssueDate" "2026-02-09"]

/-- Concrete signature element for the C3 witness (shape of a `signxml`
enveloped signature). -/
def c3Sig : XNode :=
  .el "ds:Signature" none
    [.el "ds:SignedInfo" none [], .el "ds:SignatureValue" (some "MEUCIQ") [],
     .el "ds:KeyInfo" none []]

/-- C3 witness: the located-signature theorem applied to a concrete
document and signature. -/
theorem firmar_xml_signature_in_placeholder_witness :
    cntTagL sigTag (childrenOf (firmarXmlTree c3Sig c3Doc)) = 1 ∧
    tagHasChildTag extTag sigTag (firmarXmlTree c3Sig c3Doc) = true ∧
    ∀ c ∈ childrenOf (firmarXmlTree c3Sig c3Doc), tagOf c ≠ sigTag :=
  firmar_xml_signature_in_placeholder c3Doc c3Sig (by decide) (by decide)
    (by decide) (by decide)

/-- Concrete comprobante used by the serialization and builder theorems. -/
def c4Comp : ComprobanteDoc :=
  { tipo_documento := "01", serie := "F001", numero := 1,
    fecha_emision := "2026-02-09", hora_emision := "10:00:00", moneda := "PEN",
    cliente_tipo_doc := "6", cliente_num_doc := "20100100100",
    cliente_nombre := "ACME SAC", cliente_direccion := "AV LIMA 123",
    items := [⟨"Item", 1, 100, "10", "NIU"⟩] }

/-- Concrete emisor used by the serialization and builder theorems. -/
def c4Emisor : EmisorDict :=
  { ruc := "20600055519", razon_social := "MI EMPRESA SAC",
    nombre_comercial := "MI EMPRESA", direccion := "JR UNION 100",
    ubigeo := "150101", departamento := "LIMA", provincia := "LIMA",
    distrito := "LIMA" }

/-- C4 (the code contradicts the claim): both serialization steps are
called with `pretty_print=True` (`xml_generator.py` line 223,
`firma_digital.py` line 113), so neither the Document Builder output nor
the signed output is the canonical whitespace-free serialization of its
element tree — the signed document is reformatted AFTER the digest was
computed. -/
theorem serialization_is_pretty_printed :
    buildFacturaBoletaBytes c4Comp c4Emisor ≠
      etreeTostring false (buildFacturaBoletaTree c4Comp c4Emisor) ∧
    firmarXmlBytes c3Sig c3Doc ≠ etreeTostring false (firmarXmlTree c3Sig c3Doc) := by
  constructor
  · decide
  · decide

theorem hasElemTextL_of_mem (tag : String) (txt : Option String) (c : XNode)
    (cs : List XNode) (hc : c ∈ cs) (h : hasElemText tag txt c = true) :
    hasElemTextL tag txt cs = true := by
  induction cs with
  | nil => cases hc
  | cons d ds ih =>
    rcases List.mem_cons.mp hc with hd | hd
    · subst hd
      simp [hasElemTextL, h]
    · simp [hasElemTextL, ih hd]

theorem hasElemText_of_child (tag : String) (txt : Option String) (c p : XNode)
    (hc : c ∈ childrenOf p) (h : hasElemText tag txt c = true) :
    hasElemText tag txt p = true := by
  cases p with
  | el t x cs =>
    simp only [childrenOf] at hc
    simp [hasElemText, hasElemTextL_of_mem tag txt c cs hc h]

/-- Emisor with all optional address sub-fields blank (the
`_build_emisor_dict` helpers default missing attributes to `""`). -/
def c5Emisor : EmisorDict :=
  { ruc := "20600055519", razon_social := "MI EMPRESA SAC",
    nombre_comercial := "", direccion := "", ubigeo := "150101",
    departamento := "", provincia := "", distrito := "" }

/-- Comprobante with a blank customer address. -/
def c5Comp : ComprobanteDoc :=
  { tipo_documento := "01", serie := "F001", numero := 2,
    fecha_emision := "2026-02-09", hora_emision := "10:00:00", moneda := "PEN",
    cliente_tipo_doc := "1", cliente_num_doc := "44556677",
    cliente_nombre := "CLIENTE", cliente_direccion := "", items := [] }

/-- C5 counterexample: for an emisor whose province, department, district
and address line are blank, the built XML DOES contain address
sub-elements with empty text content — `_build_supplier` emits
`cbc:CityName`, `cbc:CountrySubentity`, `cbc:District` and the
`cbc:Line` of `cac:AddressLine` unconditionally, so the claim fails on
the supplier block. -/
theorem c5_counterexample :
    hasElemText "cbc:CityName" (some "") (buildFacturaBoletaTree c5Comp c5Emisor) = true ∧
    hasElemText "cbc:CountrySubentity" (some "") (buildFacturaBoletaTree c5Comp c5Emisor) = true ∧
    hasElemText "cbc:District" (some "") (buildFacturaBoletaTree c5Comp c5Emisor) = true ∧
    hasElemText "cbc:Line" (some "") (buildFacturaBoletaTree c5Comp c5Emisor) = true := by
  have hmem : buildSupplier c5Emisor ∈ childrenOf (buildFacturaBoletaTree c5Comp c5Emisor) := by
    simp [buildFacturaBoletaTree, childrenOf]
  exact ⟨hasElemText_of_child _ _ _ _ hmem (by decide),
    hasElemText_of_child _ _ _ _ hmem (by decide),
    hasElemText_of_child _ _ _ _ hmem (by decide),
    hasElemText_of_child _ _ _ _ hmem (by decide)⟩

/-- C5 (amended): the customer block omits the whole
`cac:RegistrationAddress` element when the customer address is blank, but
the supplier block always emits its address sub-elements, carrying
whatever text the emisor fields hold — including empty text when they are
blank. -/
theorem c5_amended (c : ComprobanteDoc) (e : EmisorDict)
    (hdir : c.cliente_direccion = "") :
    cntTag "cac:RegistrationAddress" (buildCustomer c) = 0 ∧
    hasElemText "cbc:CityName" (some e.provincia) (buildSupplier e) = true ∧
    hasElemText "cbc:CountrySubentity" (some e.departamento) (buildSupplier e) = true ∧
    hasElemText "cbc:District" (some e.distrito) (buildSupplier e) = true ∧
    hasElemText "cbc:Line" (some e.direccion) (buildSupplier e) = true := by
  refine ⟨?_, ?_, ?_, ?_, ?_⟩
  · simp [buildCustomer, hdir, cacE, cbcE, cntTag, cntTagL]
  · simp [buildSupplier, cacE, cbcE, hasElemText, hasElemTextL]
  · simp [buildSupplier, cacE, cbcE, hasElemText, hasElemTextL]
  · simp [buildSupplier, cacE, cbcE, hasElemText, hasElemTextL]
  · simp [buildSupplier, cacE, cbcE, hasElemText, hasElemTextL]

/-- C5 witness: the amended theorem applied to the concrete blank-address
emisor and customer. -/
theorem c5_amended_witness :
    cntTag "cac:RegistrationAddress" (buildCustomer c5Comp) = 0 ∧
    hasElemText "cbc:CityName" (some c5Emisor.provincia) (buildSupplier c5Emisor) = true ∧
    hasElemText "cbc:CountrySubentity" (some c5Emisor.departamento) (buildSupplier c5Emisor) = true ∧
    hasElemText "cbc:District" (some c5Emisor.distrito) (buildSupplier c5Emisor) = true ∧
    hasElemText "cbc:Line" (some c5Emisor.direccion) (buildSupplier c5Emisor) = true :=
  c5_amended c5Comp c5Emisor rfl

/-! ## Submission Client (`src/services/sunat_client.py`) -/

/-- Whether the first list is a leading segment of the second
(structural model of Python `str.startswith`). -/
def startsWithChars : List Char → List Char → Bool
  | [], _ => true
  | _ :: _, [] => false
  | a :: as, b :: bs => a == b && startsWithChars as bs

/-- Whether the first list occurs contiguously inside the second
(structural model of Python `sub in s`). -/
def hasInfixChars (sub : List Char) : List Char → Bool
  | [] => startsWithChars sub []
  | b :: bs => startsWithChars sub (b :: bs) || hasInfixChars sub bs

/-- Python `sub in s` on strings. -/
def containsSub (sub s : String) : Bool := hasInfixChars sub.toList s.toList

/-- Python `s.startswith(pre)`. -/
def pyStartsWith (s pre : String) : Bool := startsWithChars pre.toList s.toList

/-- The retryable-failure test of `enviar_comprobante`:
`"401" in err_text or "Unauthorized" in err_text or
"ConnectionError" in err_text`. -/
def esErrorRecuperable (err : String) : Bool :=
  containsSub "401" err || containsSub "Unauthorized" err || containsSub "ConnectionError" err

/-- The `codigo`/`descripcion` pair of a parsed CDR dict
(`_parse_cdr`). -/
structure CdrResult where
  codigo : Option String
  descripcion : Option String
deriving DecidableEq, Repr

/-- Outcome of one `client.service.sendBill(...)` attempt: either the
parsed CDR of a completed round-trip, or the text of the raised
exception. -/
inductive AttemptOutcome where
  | ok (cdr : CdrResult)
  | exn (errText : String)
deriving DecidableEq, Repr

/-- Observable trace of one `enviar_comprobante` call: the returned dict,
the number of `sendBill` attempts made, the `time.sleep` waits performed
(seconds), and how many times the cached SOAP client was invalidated. -/
structure EnvioTrace where
  result : CdrResult
  attemptsUsed : Nat
  waits : List Nat
  cacheInvalidations : Nat
deriving DecidableEq, Repr

/-- The `for attempt in range(3)` retry loop of `enviar_comprobante`
(`src/services/sunat_client.py`, lines 199-279), with the per-attempt
outcome supplied as an oracle.  On a retryable failure the cache is
invalidated and, while `attempt < 2`, the loop sleeps `3 * (attempt + 1)`
seconds and retries (with `force_new=True`, i.e. a fresh connection); any
other exception returns immediately with a `None` code and the fault text
as description.  The `remaining` fuel keeps `attempt + remaining = 3`;
the fuel-exhausted branch corresponds to the `return` after the loop,
which is unreachable because the third iteration always returns. -/
def enviarLoop (outcome : Nat → AttemptOutcome) :
    Nat → Nat → List Nat → Nat → EnvioTrace
  | 0, _, waits, inval =>
    { result := ⟨none, none⟩, attemptsUsed := 3, waits := waits,
      cacheInvalidations := inval }
  | remaining + 1, attempt, waits, inval =>
    match outcome attempt with
    | .ok cdr =>
      { result := cdr, attemptsUsed := attempt + 1, waits := waits,
        cacheInvalidations := inval }
    | .exn e =>
      if esErrorRecuperable e then
        if attempt < 2 then
          enviarLoop outcome remaining (attempt + 1)
            (waits ++ [3 * (attempt + 1)]) (inval + 1)
        else
          { result := ⟨none, some e⟩, attemptsUsed := attempt + 1,
            waits := waits, cacheInvalidations := inval + 1 }
      else
        { result := ⟨none, some e⟩, attemptsUsed := attempt + 1,
          waits := waits, cacheInvalidations := inval }

/-- `enviar_comprobante`: run the retry loop from attempt 0. -/
def enviarComprobante (outcome : Nat → AttemptOutcome) : EnvioTrace :=
  enviarLoop outcome 3 0 [] 0

/-! ## Receipt Interpreter classification and Issuance Orchestrator
(`src/tasks/envio_sunat.py`, `src/tasks/tasks.py`) -/

/-- The CDR classification shared by `enviar_comprobante_task`
(envio_sunat.py lines 249-259) and `emitir_comprobante_task` (tasks.py
lines 314-320): `codigo = str(cdr.get("codigo") or "")`, then `"0"` →
`aceptado`, leading `"2"` → `aceptado_con_observaciones`, anything else →
`rechazado`. -/
def estadoDeCodigo (codigo : Option String) : String :=
  let c := match codigo with
    | none => ""
    | some s => s
  if c = "0" then "aceptado"
  else if pyStartsWith c "2" then "aceptado_con_observaciones"
  else "rechazado"

/-- Modelled from the spec (claim C2 reference definition): code `"0"` →
accepted; a code starting with `"2"` → accepted-with-observations;
anything else, a null code included, → rejected. -/
def specClasifica (codigo : Option String) : String :=
  match codigo with
  | none => "rechazado"
  | some c =>
    if c = "0" then "aceptado"
    else if pyStartsWith c "2" then "aceptado_con_observaciones"
    else "rechazado"

/-- Inputs (oracles) of one `enviar_comprobante_sunat` task run. -/
structure EnvioSunatInput where
  compFound : Bool
  emisorFound : Bool
  certificado : Bool
  decryptOk : Bool
  decryptErr : String
  xmlSignResult : Except String Unit
  sendResult : Except String CdrResult
  retriesSoFar : Nat
deriving Repr

/-- Observable outcome of one `enviar_comprobante_sunat` run: the final
persisted `comp.estado` (`none` when the comprobante was never loaded),
the persisted `comp.descripcion_respuesta`, whether `enviar_comprobante`
(the network call) was reached, and whether the task re-raised
`self.retry`. -/
structure TaskRun where
  estado : Option String
  descripcion : Option String
  networkCalled : Bool
  celeryRetry : Bool
deriving DecidableEq, Repr

/-- `enviar_comprobante_task` (`src/tasks/envio_sunat.py`): a missing
active certificate sets `estado = "error"` with the reason
`"Certificado digital no encontrado"` and returns before any network
call; XML/signing failures set `estado = "rechazado"`; a raising
submission sets `rechazado` and schedules a Celery retry while retries
remain; a returned CDR is classified by `estadoDeCodigo`. -/
def enviarComprobanteTask (inp : EnvioSunatInput) : TaskRun :=
  if !inp.compFound then ⟨none, none, false, false⟩
  else if !inp.emisorFound then ⟨some "error", none, false, false⟩
  else if !inp.certificado then
    ⟨some "error", some "Certificado digital no encontrado", false, false⟩
  else if !inp.decryptOk then
    ⟨some "error", some ("Error desencriptando certificado: " ++ inp.decryptErr),
      false, false⟩
  else
    match inp.xmlSignResult with
    | .error e => ⟨some "rechazado", some ("Error XML: " ++ e), false, false⟩
    | .ok _ =>
      match inp.sendResult with
      | .error e =>
        ⟨some "rechazado", some e, true, decide (inp.retriesSoFar < 3)⟩
      | .ok cdr =>
        let est := estadoDeCodigo cdr.codigo
        if est = "rechazado" then ⟨some est, cdr.descripcion, true, false⟩
        else ⟨some est, none, true, false⟩

/-- Inputs (oracles) of one `emitir_comprobante_task` run. -/
structure EmitirInput where
  compFound : Bool
  emisorFound : Bool
  certificado : Bool
  test_mode : Bool
  testCertOk : Bool
  testCertErr : String
  decryptOk : Bool
  decryptErr : String
  xmlSignResult : Except String Unit
  sendResult : Except String CdrResult
deriving Repr

/-- Observable outcome of one `emitir_comprobante_task` run: final
persisted `comp.estado`, the message of the last `LogEnvio` row written,
and whether `enviar_comprobante` was reached. -/
structure EmitirRun where
  estado : Option String
  logMensaje : Option String
  networkCalled : Bool
deriving DecidableEq, Repr

/-- `emitir_comprobante_task` from "GENERAR XML + FIRMAR" onwards
(reached once a usable certificate is at hand). -/
def emitirRest (inp : EmitirInput) : EmitirRun :=
  match inp.xmlSignResult with
  | .error e => ⟨some "rechazado", some e, false⟩
  | .ok _ =>
    if inp.test_mode then ⟨some "aceptado", some "CDR simulado guardado", false⟩
    else
      match inp.sendResult with
      | .error e => ⟨some "rechazado", some e, true⟩
      | .ok cdr => ⟨some (estadoDeCodigo cdr.codigo), none, true⟩

/-- `emitir_comprobante_task` (`src/tasks/tasks.py`): with no active
certificate and `test_mode=False` the document is marked `rechazado`
with log message `"Certificado no encontrado"` and the task returns
before any network call; in `test_mode` a temporary self-signed
certificate is generated instead. -/
def emitirComprobanteTask (inp : EmitirInput) : EmitirRun :=
  if !inp.compFound then ⟨none, none, false⟩
  else if !inp.emisorFound then ⟨some "rechazado", none, false⟩
  else if !inp.certificado then
    (if inp.test_mode then
      (if inp.testCertOk then emitirRest inp
       else ⟨some "rechazado", some inp.testCertErr, false⟩)
     else ⟨some "rechazado", some "Certificado no encontrado", false⟩)
  else if !inp.decryptOk then ⟨some "rechazado", some inp.decryptErr, false⟩
  else emitirRest inp

/-! ## Resubmission (`src/api/routes.py` `reenviar_comprobante`,
`src/tasks/tasks.py` `reenviar_comprobante_task`) -/

/-- Outcome of a resubmission entry point: whether it refused, the
document state right after the guard, and whether a (re-)submission was
set in motion. -/
structure ReenviarResult where
  refused : Bool
  estadoAfter : String
  enqueued : Bool
deriving DecidableEq, Repr

/-- `POST /comprobantes/{id}/reenviar` (routes.py lines 296-309): only a
plain `aceptado` document is refused (HTTP 400, state untouched);
anything else is set to `enviando` and re-enqueued. -/
def reenviarComprobanteRoute (estado : String) : ReenviarResult :=
  if estado = "aceptado" then ⟨true, estado, false⟩
  else ⟨false, "enviando", true⟩

/-- `reenviar_comprobante_task` guard (tasks.py lines 358-364): only a
plain `aceptado` document is refused; anything else proceeds to
`enviar_comprobante` (the state is later overwritten by the CDR
classification). -/
def reenviarComprobanteTask (estado : String) : ReenviarResult :=
  if estado = "aceptado" then ⟨true, estado, false⟩
  else ⟨false, estado, true⟩

/-! ## Sequence-number assignment
(`src/api/v1/comprobantes.py`, lines 151-159) -/

/-- `ultimo = query(...).order_by(numero.desc()).first();
numero = ultimo.numero + 1 if ultimo else 1`. -/
def nextNumero (db : List Nat) : Nat := db.foldl max 0 + 1

/-- One complete sequential issuance for a fixed (issuer, series) key:
read the maximum, insert max+1. -/
def emitirSeq (db : List Nat) : List Nat := db ++ [nextNumero db]

/-- State of two concurrent issuances over one (issuer, series) key:
the persisted numbers and each worker's captured `numero` (set by its
read step, consumed by its insert step). -/
structure ConcState where
  db : List Nat
  cap0 : Option Nat
  cap1 : Option Nat
deriving DecidableEq, Repr

/-- One scheduler step: the selected worker performs its next action —
first the read (`numero = max + 1`), then the insert (`db.add(...)`).
The read and the insert are separate steps because the endpoint commits
them without any serialization between read and write. -/
def concStep (s : ConcState) (w : Bool) : ConcState :=
  if w then
    match s.cap1 with
    | none => { s with cap1 := some (nextNumero s.db) }
    | some v => { s with db := s.db ++ [v] }
  else
    match s.cap0 with
    | none => { s with cap0 := some (nextNumero s.db) }
    | some v => { s with db := s.db ++ [v] }

/-- Run a schedule (list of worker selections). -/
def runSchedule (sched : List Bool) (s : ConcState) : ConcState :=
  sched.foldl concStep s

/-! ## Claim theorems: receipt classification, retry policy,
orchestration, resubmission, sequence numbers -/

/-- C2: the response-code classification of both orchestrator tasks is
exactly the spec mapping — `"0"` → `aceptado`; a code starting with `"2"`
(e.g. `"2105"`) → `aceptado_con_observaciones`; anything else, an absent
code included (e.g. `"3244"`, `None`) → `rechazado`. -/
theorem estadoDeCodigo_correct (codigo : Option String) :
    estadoDeCodigo codigo = specClasifica codigo ∧
    estadoDeCodigo (some "0") = "aceptado" ∧
    estadoDeCodigo (some "2105") = "aceptado_con_observaciones" ∧
    estadoDeCodigo (some "3244") = "rechazado" ∧
    estadoDeCodigo none = "rechazado" := by
  refine ⟨?_, by decide, by decide, by decide, by decide⟩
  cases codigo with
  | none => decide
  | some s => rfl

theorem enviarLoop_attempts_le (outcome : Nat → AttemptOutcome) :
    ∀ rem att waits inval, att + rem = 3 →
      (enviarLoop outcome rem att waits inval).attemptsUsed ≤ 3
  | 0, att, waits, inval, _ => by simp [enviarLoop]
  | rem + 1, att, waits, inval, h => by
    rw [enviarLoop]
    cases outcome att with
    | ok cdr => simp; omega
    | exn e =>
      by_cases hre : esErrorRecuperable e
      · simp only [hre, if_true]
        by_cases hlt : att < 2
        · simp only [hlt, if_true]
          exact enviarLoop_attempts_le outcome rem (att + 1) _ _ (by omega)
        · simp only [hlt, if_false]
          omega
      · simp only [Bool.not_eq_true] at hre
        simp only [hre, Bool.false_eq_true, if_false]
        omega

/-- C6: the submission client makes at most 3 `sendBill` attempts per
call; a non-retryable exception (no `401`/`Unauthorized`/
`ConnectionError` in its text) stops immediately and its text becomes the
outcome (a rejection-style result with a null code); a retryable failure
invalidates the cached client, sleeps `3s × attempt number`, and retries
with a fresh connection — so success on the second attempt shows
exactly one 3-second wait and one invalidation, success on the third
shows waits `[3, 6]` and two invalidations, and three failures return
the last fault text with a null code. -/
theorem enviar_comprobante_retry_policy (outcome : Nat → AttemptOutcome) :
    (enviarComprobante outcome).attemptsUsed ≤ 3 ∧
    (∀ cdr, outcome 0 = .ok cdr →
      enviarComprobante outcome = ⟨cdr, 1, [], 0⟩) ∧
    (∀ e, outcome 0 = .exn e → esErrorRecuperable e = false →
      enviarComprobante outcome = ⟨⟨none, some e⟩, 1, [], 0⟩) ∧
    (∀ e cdr, outcome 0 = .exn e → esErrorRecuperable e = true →
      outcome 1 = .ok cdr →
      enviarComprobante outcome = ⟨cdr, 2, [3], 1⟩) ∧
    (∀ e0 e1, outcome 0 = .exn e0 → esErrorRecuperable e0 = true →
      outcome 1 = .exn e1 → esErrorRecuperable e1 = false →
      enviarComprobante outcome = ⟨⟨none, some e1⟩, 2, [3], 1⟩) ∧
    (∀ e0 e1 cdr, outcome 0 = .exn e0 → esErrorRecuperable e0 = true →
      outcome 1 = .exn e1 → esErrorRecuperable e1 = true →
      outcome 2 = .ok cdr →
      enviarComprobante outcome = ⟨cdr, 3, [3, 6], 2⟩) ∧
    (∀ e0 e1 e2, outcome 0 = .exn e0 → esErrorRecuperable e0 = true →
      outcome 1 = .exn e1 → esErrorRecuperable e1 = true →
      outcome 2 = .exn e2 → esErrorRecuperable e2 = true →
      enviarComprobante outcome = ⟨⟨none, some e2⟩, 3, [3, 6], 3⟩) := by
  refine ⟨enviarLoop_attempts_le outcome 3 0 [] 0 rfl, ?_, ?_, ?_, ?_, ?_, ?_⟩
  · intro cdr h0
    simp [enviarComprobante, enviarLoop, h0]
  · intro e h0 hre
    simp [enviarComprobante, enviarLoop, h0, hre]
  · intro e cdr h0 hre h1
    simp [enviarComprobante, enviarLoop, h0, hre, h1]
  · intro e0 e1 h0 hre0 h1 hre1
    simp [enviarComprobante, enviarLoop, h0, hre0, h1, hre1]
  · intro e0 e1 cdr h0 hre0 h1 hre1 h2
    simp [enviarComprobante, enviarLoop, h0, hre0, h1, hre1, h2]
  · intro e0 e1 e2 h0 hre0 h1 hre1 h2 hre2
    simp [enviarComprobante, enviarLoop, h0, hre0, h1, hre1, h2, hre2]

/-- Concrete outcome sequence for the C6 witness: a connection error on
the first attempt, success on the second. -/
def c6Outcome : Nat → AttemptOutcome
  | 0 => .exn "ConnectionError: connection refused"
  | _ => .ok ⟨some "0", some "La Factura ha sido aceptada"⟩

/-- C6 witness: the retry-policy theorem applied to a concrete outcome
sequence — one retryable failure, then success, giving two attempts, one
3-second wait and one cache invalidation. -/
theorem enviar_comprobante_retry_policy_witness :
    enviarComprobante c6Outcome =
      ⟨⟨some "0", some "La Factura ha sido aceptada"⟩, 2, [3], 1⟩ :=
  (enviar_comprobante_retry_policy c6Outcome).2.2.2.1
    "ConnectionError: connection refused"
    ⟨some "0", some "La Factura ha sido aceptada"⟩ rfl (by decide) rfl

/-- Concrete input for C7: comprobante and emisor found, no active
certificate. -/
def c7EnvioInput : EnvioSunatInput :=
  { compFound := true, emisorFound := true, certificado := false,
    decryptOk := true, decryptErr := "", xmlSignResult := .ok (),
    sendResult := .ok ⟨some "0", some "ok"⟩, retriesSoFar := 0 }

/-- Concrete input for C7 on the `emitir_comprobante_task` side. -/
def c7EmitirInput : EmitirInput :=
  { compFound := true, emisorFound := true, certificado := false,
    test_mode := false, testCertOk := true, testCertErr := "",
    decryptOk := true, decryptErr := "", xmlSignResult := .ok (),
    sendResult := .ok ⟨some "0", some "ok"⟩ }

/-- C7 counterexample: on a missing active certificate
`enviar_comprobante_sunat` leaves the document in `error`, NOT in
`rejected` as the claim states (no network call is attempted, as
claimed). -/
theorem c7_counterexample :
    (enviarComprobanteTask c7EnvioInput).estado = some "error" ∧
    (enviarComprobanteTask c7EnvioInput).networkCalled = false ∧
    (enviarComprobanteTask c7EnvioInput).estado ≠ some "rechazado" := by
  decide

/-- C7 (amended): with no active certificate, both orchestrator tasks
terminate before any network call and without scheduling a retry, with a
persisted reason that mentions the certificate — but
`emitir_comprobante_task` marks the document `rechazado` while
`enviar_comprobante_sunat` marks it `error`. -/
theorem missing_certificate_terminal (a : EnvioSunatInput) (b : EmitirInput)
    (ha1 : a.compFound = true) (ha2 : a.emisorFound = true)
    (ha3 : a.certificado = false)
    (hb1 : b.compFound = true) (hb2 : b.emisorFound = true)
    (hb3 : b.certificado = false) (hb4 : b.test_mode = false) :
    enviarComprobanteTask a =
      ⟨some "error", some "Certificado digital no encontrado", false, false⟩ ∧
    emitirComprobanteTask b =
      ⟨some "rechazado", some "Certificado no encontrado", false⟩ ∧
    containsSub "Certificado" "Certificado digital no encontrado" = true ∧
    containsSub "Certificado" "Certificado no encontrado" = true := by
  refine ⟨?_, ?_, by decide, by decide⟩
  · simp [enviarComprobanteTask, ha1, ha2, ha3]
  · simp [emitirComprobanteTask, hb1, hb2, hb3, hb4]

/-- C7 witness: the missing-certificate theorem applied to the concrete
inputs. -/
theorem missing_certificate_terminal_witness :
    enviarComprobanteTask c7EnvioInput =
      ⟨some "error", some "Certificado digital no encontrado", false, false⟩ ∧
    emitirComprobanteTask c7EmitirInput =
      ⟨some "rechazado", some "Certificado no encontrado", false⟩ ∧
    containsSub "Certificado" "Certificado digital no encontrado" = true ∧
    containsSub "Certificado" "Certificado no encontrado" = true :=
  missing_certificate_terminal c7EnvioInput c7EmitirInput rfl rfl rfl rfl rfl rfl rfl

/-- C8 counterexample: a document in the terminal accepted state
`aceptado_con_observaciones` is NOT refused — the single-reenviar
endpoint re-enqueues it and overwrites its state with `enviando`, and the
reenviar task proceeds to resubmit it. -/
theorem c8_counterexample :
    (reenviarComprobanteRoute "aceptado_con_observaciones").refused = false ∧
    (reenviarComprobanteRoute "aceptado_con_observaciones").enqueued = true ∧
    (reenviarComprobanteRoute "aceptado_con_observaciones").estadoAfter = "enviando" ∧
    (reenviarComprobanteTask "aceptado_con_observaciones").refused = false ∧
    (reenviarComprobanteTask "aceptado_con_observaciones").enqueued = true := by
  decide

/-- C8 (amended): both resubmission operations refuse exactly the plain
`aceptado` state — a refused document is left unchanged and not
re-enqueued — while every other state, the terminal
`aceptado_con_observaciones` included, is resubmitted. -/
theorem reenviar_guard (estado : String) :
    ((reenviarComprobanteRoute estado).refused = true ↔ estado = "aceptado") ∧
    ((reenviarComprobanteTask estado).refused = true ↔ estado = "aceptado") ∧
    (estado = "aceptado" →
      reenviarComprobanteRoute estado = ⟨true, estado, false⟩ ∧
      reenviarComprobanteTask estado = ⟨true, estado, false⟩) ∧
    (estado ≠ "aceptado" →
      (reenviarComprobanteRoute estado).enqueued = true ∧
      (reenviarComprobanteTask estado).enqueued = true) := by
  by_cases h : estado = "aceptado" <;>
    simp [reenviarComprobanteRoute, reenviarComprobanteTask, h]

/-- C8 witness: the guard theorem applied to concrete states. -/
theorem reenviar_guard_witness :
    (reenviarComprobanteRoute "aceptado" = ⟨true, "aceptado", false⟩ ∧
      reenviarComprobanteTask "aceptado" = ⟨true, "aceptado", false⟩) ∧
    ((reenviarComprobanteRoute "rechazado").enqueued = true ∧
      (reenviarComprobanteTask "rechazado").enqueued = true) :=
  ⟨(reenviar_guard "aceptado").2.2.1 rfl,
   (reenviar_guard "rechazado").2.2.2 (by decide)⟩

/-- C9 counterexample: interleaving two concurrent issuances over an
empty table — both read the maximum before either inserts — assigns the
sequence number 1 twice: the read-max-then-insert of the issuance
endpoint has no duplicate re-check and is not atomic. -/
theorem c9_counterexample :
    (runSchedule [false, true, false, true] ⟨[], none, none⟩).db = [1, 1] ∧
    ¬ (runSchedule [false, true, false, true] ⟨[], none, none⟩).db.Nodup := by
  refine ⟨by decide, by decide⟩

theorem nextNumero_range (n : Nat) : nextNumero (List.range' 1 n) = n + 1 := by
  induction n with
  | zero => decide
  | succ n ih =>
    rw [nextNumero] at ih ⊢
    rw [List.range'_concat, List.foldl_append]
    simp only [List.foldl]
    omega

/-- C9 (amended): executed sequentially (each read-max immediately
followed by its insert), n issuances starting from an empty table assign
exactly the numbers 1, 2, …, n — no repeats and no gaps; under
concurrent interleaving, however, duplicates are reachable (see the
counterexample), because the endpoint reads the maximum and inserts
without atomicity and without any duplicate re-check. -/
theorem sequential_issuance (n : Nat) :
    emitirSeq^[n] [] = List.range' 1 n ∧ (List.range' 1 n).Nodup := by
  constructor
  · induction n with
    | zero => rfl
    | succ n ih =>
      rw [Function.iterate_succ_apply', ih, emitirSeq, nextNumero_range,
        List.range'_concat]
      simp [Nat.add_comm]
  · exact List.nodup_range' 1 n

/-- Line item with the out-of-catalog tax code "50". -/
def c10ItemRaro : Item := ⟨"X", 1, 5, "50", "NIU"⟩

/-- Line item with the empty (falsy) tax code. -/
def c10ItemVacio : Item := ⟨"Y", 1, 1, "", "NIU"⟩

/-- C10 counterexample: the empty string is not one of the four
catalog codes, yet a line carrying it IS added to the taxed bucket —
`str(... or "10")` normalizes a falsy code to `"10"` before bucketing,
so the claim fails as stated for code `""`. -/
theorem c10_counterexample :
    ("" ∉ (["10", "20", "30", "40"] : List String)) ∧
    (calcularTotales [c10ItemVacio]).gravado = 1 ∧
    (calcularTotales [c10ItemVacio]).subtotal = 1 := by
  refine ⟨by decide, ?_, ?_⟩
  · simp [calcularTotales, calcStep, c10ItemVacio, tipoNorm, d2]
    norm_num [roundHalfUp2]
  · simp [calcularTotales, calcStep, c10ItemVacio, tipoNorm, d2]
    norm_num [roundHalfUp2]

/-- C10 (amended): a line item whose NORMALIZED tax code (empty code →
`"10"`) is not one of `"10"`, `"20"`, `"30"`, `"40"` contributes to no
bucket — removing it leaves all seven totals unchanged — while the
builder still emits one XML line entry per input item; concretely, for a
single line of amount 5.00 with code `"50"` the document subtotal and
grand total are 0, strictly smaller than the emitted line amount. -/
theorem unknown_tax_code_line (pre post : List Item) (it : Item)
    (h : tipoNorm it.tipo_afectacion_igv ∉ (["10", "20", "30", "40"] : List String)) :
    calcularTotales (pre ++ it :: post) = calcularTotales (pre ++ post) ∧
    (∀ items ltag qtag, (buildLines items ltag qtag).length = items.length) ∧
    (calcularTotales [c10ItemRaro]).subtotal = 0 ∧
    (calcularTotales [c10ItemRaro]).total = 0 ∧
    montoLinea c10ItemRaro = 5 ∧
    (childrenOf (buildInvoiceLine 1 c10ItemRaro "InvoiceLine" "InvoicedQuantity")).get? 2 =
      some (amountE "LineExtensionAmount" (montoLinea c10ItemRaro)) ∧
    (calcularTotales [c10ItemRaro]).subtotal < montoLinea c10ItemRaro := by
  simp only [List.mem_cons, List.mem_singleton, not_or] at h
  obtain ⟨h10, h20, h30, h40⟩ := h
  have hsub : (calcularTotales [c10ItemRaro]).subtotal = 0 := by
    simp [calcularTotales, calcStep, c10ItemRaro, tipoNorm, d2]
  have hmonto : montoLinea c10ItemRaro = 5 := by
    simp [montoLinea, c10ItemRaro, d2]
    norm_num [roundHalfUp2]
  refine ⟨?_, ?_, hsub, ?_, hmonto, ?_, ?_⟩
  · have hstep : ∀ acc, calcStep acc it = acc := by
      intro acc
      simp [calcStep, h10, h20, h30, h40]
    simp [calcularTotales, List.foldl_append, hstep]
  · intro items ltag qtag
    simp [buildLines]
  · simp [calcularTotales, calcStep, c10ItemRaro, tipoNorm, d2]
  · rfl
  · rw [hsub, hmonto]
    norm_num

/-- C10 witness: the amended theorem applied to a concrete list around a
concrete out-of-catalog line. -/
theorem unknown_tax_code_line_witness :
    calcularTotales ([c10ItemVacio] ++ c10ItemRaro :: []) = calcularTotales ([c10ItemVacio] ++ []) ∧
    (∀ items ltag qtag, (buildLines items ltag qtag).length = items.length) ∧
    (calcularTotales [c10ItemRaro]).subtotal = 0 ∧
    (calcularTotales [c10ItemRaro]).total = 0 ∧
    montoLinea c10ItemRaro = 5 ∧
    (childrenOf (buildInvoiceLine 1 c10ItemRaro "InvoiceLine" "InvoicedQuantity")).get? 2 =
      some (amountE "LineExtensionAmount" (montoLinea c10ItemRaro)) ∧
    (calcularTotales [c10ItemRaro]).subtotal < montoLinea c10ItemRaro :=
  unknown_tax_code_line [c10ItemVacio] [] c10ItemRaro (by decide)

end Facturando
